import Mathlib

/-
Verification of the callback-marshaling adapter in src/memory_editor.rs
(imgui-memory-editor-rs).

Shallow embedding conventions:
- Rust `u8` byte values are modelled as `Nat` (the code never does byte
  arithmetic, it only forwards bytes).
- `usize` values (mem_size, base_addr, offsets) are modelled as `Nat`.
- The optional boxed closures (ReadHandler / WriteHandler / HighlightHandler)
  are modelled as `Option` of pure Lean functions; a write handler, which
  mutates the user data through `&mut T`, returns the updated `T`.
- The external widget (sys::Editor_DrawWindow / sys::Editor_DrawContents) is
  out of scope per the code; a call into it is recorded as a `DrawCall` value
  carrying exactly the arguments the Rust code passes.
- A Rust `assert!` failure (or `Option::unwrap` on `None`) is modelled as a
  `DrawOutcome.panicked` result carrying the assertion message, paired with
  the editor state as it stands at the moment of the panic; trampolines
  return `Option`, with `none` for the `unwrap` panic.
- The C function-pointer slots of sys::MemoryEditor (ReadFn / WriteFn /
  HighlightFn) can only ever hold the corresponding wrapper instantiation,
  so each slot is an `Option` of a one-constructor type naming that wrapper.
-/

/-- Rust u8, modelled as Nat. -/
abbrev Byte := Nat

/-- The only value ever stored in the raw ReadFn slot: read_wrapper::<T>. -/
inductive RawReadFn where
  | read_wrapper
  deriving DecidableEq

/-- The only value ever stored in the raw WriteFn slot: write_wrapper::<T>. -/
inductive RawWriteFn where
  | write_wrapper
  deriving DecidableEq

/-- The only value ever stored in the raw HighlightFn slot:
highlight_wrapper::<T>. -/
inductive RawHighlightFn where
  | highlight_wrapper
  deriving DecidableEq

/-- The fields of the external sys::MemoryEditor configuration record that
the wrapper reads or writes (builder setters, the Open getter, and the three
trampoline slots installed by draw). `Cols` and the other i32 options are
Int; `HighlightColor` (an ImU32) is a Nat. -/
structure SysMemoryEditor where
  Open : Bool
  ReadOnly : Bool
  Cols : Int
  OptShowOptions : Bool
  OptShowDataPreview : Bool
  OptShowHexII : Bool
  OptShowAscii : Bool
  OptGreyOutZeroes : Bool
  OptUpperCaseHex : Bool
  OptMidColsCount : Int
  OptAddrDigitsCount : Int
  HighlightColor : Nat
  ReadFn : Option RawReadFn
  WriteFn : Option RawWriteFn
  HighlightFn : Option RawHighlightFn
  deriving DecidableEq

/-- type ReadHandler of the source: Option of FnMut(&T, usize) -> u8. -/
abbrev ReadHandler (T : Type) := Option (T → Nat → Byte)

/-- type WriteHandler of the source: Option of FnMut(&mut T, usize, u8);
the mutation of T is modelled by returning the new T. -/
abbrev WriteHandler (T : Type) := Option (T → Nat → Byte → T)

/-- type HighlightHandler of the source: Option of FnMut(&T, usize) -> bool. -/
abbrev HighlightHandler (T : Type) := Option (T → Nat → Bool)

/-- type MemData of the source: the bundle handle, a tuple of the three
callback slots plus the user data, built by draw and passed (type-erased)
to the external widget, then reconstituted inside each trampoline. -/
structure MemData (T : Type) where
  read_fn : ReadHandler T
  write_fn : WriteHandler T
  highlight_fn : HighlightHandler T
  user_data : T

/-- pub struct MemoryEditor of the source. -/
structure MemoryEditor (T : Type) where
  window_name : Option String
  read_fn : ReadHandler T
  write_fn : WriteHandler T
  highlight_fn : HighlightHandler T
  mem_size : Nat
  base_addr : Nat
  raw : SysMemoryEditor

/-- The assert messages of the source (kept as named constants instead of
string literals). -/
inductive PanicMsg where
  /-- The message of the first assert in draw:
  Read Fn must be set if mem size > 0. -/
  | readFnMustBeSet
  /-- The message of the second assert in draw:
  Write Fn must be set if not read only and mem size > 0. -/
  | writeFnMustBeSet
  /-- The message of the first assert in the &[u8] draw_vec:
  Data muse be a mutable slice if editor is not read only. -/
  | dataMustBeMutableSlice
  /-- The message of the handler assert in both draw_vec variants:
  Handler functions not supported when using draw_vec. Use draw instead. -/
  | handlerFnsNotSupported
  deriving DecidableEq

/-- One invocation of the external widget, recording which entry point was
used and the exact arguments the Rust code passes: the (type-erased) payload
pointer `P`, the byte size and the base address. `P` is a `MemData` bundle
for draw, and the raw byte buffer for the draw_vec variants. -/
inductive DrawCall (P : Type) where
  | window (title : String) (mem_data : P) (mem_size : Nat) (base_addr : Nat)
  | contents (mem_data : P) (mem_size : Nat) (base_addr : Nat)

/-- The payload handed to the external widget by a DrawCall. -/
def DrawCall.memDataOf {P : Type} : DrawCall P → P
  | .window _ d _ _ => d
  | .contents d _ _ => d

/-- Result of a draw-entry-point call: either a fail-fast panic (before any
external call) or exactly one external draw invocation. -/
inductive DrawOutcome (P : Type) where
  | panicked (msg : PanicMsg)
  | drew (call : DrawCall P)

/-- True when the call reached the external widget (did not panic). -/
def DrawOutcome.isDrew {P : Type} : DrawOutcome P → Bool
  | .drew _ => true
  | .panicked _ => false

/-- The payload handed to the external widget, when the call got that far. -/
def DrawOutcome.payload {P : Type} : DrawOutcome P → Option P
  | .drew c => some c.memDataOf
  | .panicked _ => none

/-- MemoryEditor::new (lines 28-40): Editor_Create is external; it fills the
raw record with the widget's defaults, whose exact values are irrelevant
here. We use the documented defaults of the wrapped widget. -/
def defaultSys : SysMemoryEditor :=
  { Open := true
    ReadOnly := false
    Cols := 16
    OptShowOptions := true
    OptShowDataPreview := false
    OptShowHexII := false
    OptShowAscii := true
    OptGreyOutZeroes := true
    OptUpperCaseHex := true
    OptMidColsCount := 8
    OptAddrDigitsCount := 0
    HighlightColor := 0
    ReadFn := none
    WriteFn := none
    HighlightFn := none }

/-- MemoryEditor::new: all slots empty, mem_size 0, base_addr 0, no window. -/
def MemoryEditor.new {T : Type} : MemoryEditor T :=
  { window_name := none
    read_fn := none
    write_fn := none
    highlight_fn := none
    mem_size := 0
    base_addr := 0
    raw := defaultSys }

/-- MemoryEditor::draw_raw (lines 183-200): one external call, through the
window entry point when a window name is set, the inline entry point
otherwise, forwarding the payload, mem_size and base_addr. -/
def MemoryEditor.draw_raw {T P : Type} (ed : MemoryEditor T) (mem_data : P) :
    DrawCall P :=
  match ed.window_name with
  | some title => .window title mem_data ed.mem_size ed.base_addr
  | none => .contents mem_data ed.mem_size ed.base_addr

/-- MemoryEditor::draw (lines 160-181). The source order is: the two
asserts (panicking with the editor untouched), then installation of the
three raw trampoline slots (read/write unconditionally, highlight only if a
highlight callback is attached), then the bundle is built from the three
callback slots and the user data and passed to draw_raw. An assert!(c)
panics when c is false. -/
def MemoryEditor.draw {T : Type} (ed : MemoryEditor T) (user_data : T) :
    MemoryEditor T × DrawOutcome (MemData T) :=
  if !(ed.read_fn.isSome || ed.mem_size == 0) then
    (ed, .panicked .readFnMustBeSet)
  else if !(ed.write_fn.isSome || ed.raw.ReadOnly || ed.mem_size == 0) then
    (ed, .panicked .writeFnMustBeSet)
  else
    let ed' : MemoryEditor T :=
      { ed with raw :=
        { ed.raw with
          ReadFn := some RawReadFn.read_wrapper
          WriteFn := some RawWriteFn.write_wrapper
          HighlightFn :=
            if ed.highlight_fn.isSome then some RawHighlightFn.highlight_wrapper
            else none } }
    (ed',
     .drew (ed'.draw_raw
       { read_fn := ed'.read_fn
         write_fn := ed'.write_fn
         highlight_fn := ed'.highlight_fn
         user_data := user_data }))

/-- The &[u8] impl's draw_vec (lines 204-213). Its first assert is
assert!(!self.raw.ReadOnly, "Data muse be a mutable slice if editor is not
read only"): as written it panics exactly when ReadOnly is true. Then it
requires all three handler slots empty, sets mem_size to the slice length
and passes the buffer pointer to draw_raw. -/
def MemoryEditor.draw_vec_imm (ed : MemoryEditor (List Byte))
    (data : List Byte) :
    MemoryEditor (List Byte) × DrawOutcome (List Byte) :=
  if !(!ed.raw.ReadOnly) then
    (ed, .panicked .dataMustBeMutableSlice)
  else if !(ed.read_fn.isNone && ed.write_fn.isNone && ed.highlight_fn.isNone) then
    (ed, .panicked .handlerFnsNotSupported)
  else
    let ed' : MemoryEditor (List Byte) := { ed with mem_size := data.length }
    (ed', .drew (ed'.draw_raw data))

/-- The &mut [u8] impl's draw_vec (lines 219-227): requires all three
handler slots empty (no read-only check at all), sets mem_size to the buffer
length and passes the mutable buffer pointer to draw_raw. -/
def MemoryEditor.draw_vec_mut (ed : MemoryEditor (List Byte))
    (data : List Byte) :
    MemoryEditor (List Byte) × DrawOutcome (List Byte) :=
  if !(ed.read_fn.isNone && ed.write_fn.isNone && ed.highlight_fn.isNone) then
    (ed, .panicked .handlerFnsNotSupported)
  else
    let ed' : MemoryEditor (List Byte) := { ed with mem_size := data.length }
    (ed', .drew (ed'.draw_raw data))

/-- read_wrapper (lines 231-234): reconstitute the bundle, unwrap the read
slot and forward user data and offset; `none` models the unwrap panic on an
empty slot. -/
def read_wrapper {T : Type} (data : MemData T) (off : Nat) : Option Byte :=
  match data.read_fn with
  | some f => some (f data.user_data off)
  | none => none

/-- write_wrapper (lines 236-239): unwrap the write slot and forward user
data, offset and value; the mutation of the user data is the returned
bundle. -/
def write_wrapper {T : Type} (data : MemData T) (off : Nat) (d : Byte) :
    Option (MemData T) :=
  match data.write_fn with
  | some f => some { data with user_data := f data.user_data off d }
  | none => none

/-- highlight_wrapper (lines 241-244): unwrap the highlight slot and forward
user data and offset. -/
def highlight_wrapper {T : Type} (data : MemData T) (off : Nat) : Option Bool :=
  match data.highlight_fn with
  | some f => some (f data.user_data off)
  | none => none

/-- Concrete read-only-flagged editor over an immutable slice, no callbacks
attached (for C1). -/
def edC1ro : MemoryEditor (List Byte) :=
  { MemoryEditor.new with raw := { defaultSys with ReadOnly := true } }

/-- Concrete editor over an immutable slice with the read-only flag clear,
no callbacks attached (for C1). -/
def edC1rw : MemoryEditor (List Byte) :=
  MemoryEditor.new

/-- Concrete read-only editor with a read callback and mem_size 1 (for C2). -/
def edC2 : MemoryEditor Unit :=
  { MemoryEditor.new with
    mem_size := 1
    read_fn := some (fun _ _ => 0)
    raw := { defaultSys with ReadOnly := true } }

/-- The spec scenario editor for C3: byte-size 16, base-address 0, read
callback returning the offset as a byte, no write callback, read-only. -/
def edC3 : MemoryEditor Unit :=
  { MemoryEditor.new with
    mem_size := 16
    read_fn := some (fun _ off => off % 256)
    raw := { defaultSys with ReadOnly := true } }

/-- Concrete editor with a highlight callback attached and mem_size 0
(for C4). -/
def edC4 : MemoryEditor Unit :=
  { MemoryEditor.new with highlight_fn := some (fun _ _ => true) }

/-- Concrete editor with mem_size 1 and no read callback (for C5). -/
def edC5 : MemoryEditor Unit :=
  { MemoryEditor.new with
    mem_size := 1
    write_fn := some (fun u _ _ => u) }

/-- Concrete writable editor with a read callback, no write callback and
mem_size 1 (for C6). -/
def edC6a : MemoryEditor Unit :=
  { MemoryEditor.new with
    mem_size := 1
    read_fn := some (fun _ _ => 0) }

/-- Concrete read-only editor with a read callback, no write callback and
mem_size 1 (for C6). -/
def edC6b : MemoryEditor Unit :=
  { edC6a with raw := { defaultSys with ReadOnly := true } }

/-- Concrete editor with mem_size 0 and a write callback but no read
callback (for C7). -/
def edC7 : MemoryEditor Unit :=
  { MemoryEditor.new with write_fn := some (fun u _ _ => u) }

/-- Concrete editor over a mutable slice with a write callback attached
(for C8, first part: the spec scenario of a 4-byte buffer and an attached
write callback). -/
def edC8a : MemoryEditor (List Byte) :=
  { MemoryEditor.new with write_fn := some (fun u _ _ => u) }

/-- Concrete editor over a mutable slice with no callbacks (for C8,
second part). -/
def edC8b : MemoryEditor (List Byte) :=
  MemoryEditor.new

/-- Concrete read-only-flagged editor over a mutable slice with no
callbacks (for C9). -/
def edC9 : MemoryEditor (List Byte) :=
  { MemoryEditor.new with raw := { defaultSys with ReadOnly := true } }

/-- Concrete editor violating draw's first precondition: mem_size 1 and no
read callback (for C10). -/
def edC10 : MemoryEditor Unit :=
  { MemoryEditor.new with mem_size := 1, base_addr := 7 }

/-- Helper: draw_raw always hands the payload it was given to the external
widget, whichever entry point is chosen. -/
theorem draw_raw_memDataOf {T P : Type} (ed : MemoryEditor T) (p : P) :
    (ed.draw_raw p).memDataOf = p := by
  cases h : ed.window_name <;> simp [MemoryEditor.draw_raw, h, DrawCall.memDataOf]

/-- Helper: the first assert of draw fires (with the editor untouched) when
its condition is false. -/
theorem draw_panic_read {T : Type} (ed : MemoryEditor T) (ud : T)
    (h1 : (ed.read_fn.isSome || ed.mem_size == 0) = false) :
    ed.draw ud = (ed, .panicked .readFnMustBeSet) := by
  unfold MemoryEditor.draw
  simp [h1]

/-- Helper: the second assert of draw fires (with the editor untouched) when
the first passes and its own condition is false. -/
theorem draw_panic_write {T : Type} (ed : MemoryEditor T) (ud : T)
    (h1 : (ed.read_fn.isSome || ed.mem_size == 0) = true)
    (h2 : (ed.write_fn.isSome || ed.raw.ReadOnly || ed.mem_size == 0) = false) :
    ed.draw ud = (ed, .panicked .writeFnMustBeSet) := by
  unfold MemoryEditor.draw
  simp [h1, h2]

/-- Helper: when both asserts pass, draw installs the trampolines and makes
exactly one external call carrying the bundle of the three callback slots
and the user data. -/
theorem draw_success {T : Type} (ed : MemoryEditor T) (ud : T)
    (h1 : (ed.read_fn.isSome || ed.mem_size == 0) = true)
    (h2 : (ed.write_fn.isSome || ed.raw.ReadOnly || ed.mem_size == 0) = true) :
    ed.draw ud =
      (let ed' : MemoryEditor T :=
        { ed with raw :=
          { ed.raw with
            ReadFn := some RawReadFn.read_wrapper
            WriteFn := some RawWriteFn.write_wrapper
            HighlightFn :=
              if ed.highlight_fn.isSome then some RawHighlightFn.highlight_wrapper
              else none } }
       (ed',
        DrawOutcome.drew (ed'.draw_raw
          { read_fn := ed.read_fn
            write_fn := ed.write_fn
            highlight_fn := ed.highlight_fn
            user_data := ud }))) := by
  unfold MemoryEditor.draw
  simp [h1, h2]

/-- Claim C1 (code-bug evidence): the claim says the &[u8] draw_vec fails
fast exactly when the read-only flag is NOT set and proceeds when it is set.
The source's assert!(!self.raw.ReadOnly, ...) is inverted relative to its
own message: with read-only set and no callbacks it panics, and with
read-only clear it proceeds to the external draw. -/
theorem claim_C1_readonly_assert_inverted :
    (edC1ro.draw_vec_imm [0]).2 =
      DrawOutcome.panicked PanicMsg.dataMustBeMutableSlice ∧
    (edC1rw.draw_vec_imm [0]).2 =
      DrawOutcome.drew (DrawCall.contents [0] 1 0) :=
  ⟨rfl, rfl⟩

/-- Claim C2 counterexample: a successful generic draw on a read-only
configuration (edC2 has ReadOnly = true, a read callback, mem_size 1) still
installs the write trampoline into the raw WriteFn slot, refuting the claim
that the WriteFn slot is left uninstalled when read-only is configured. -/
theorem claim_C2_counterexample :
    edC2.raw.ReadOnly = true ∧
    (edC2.draw ()).2.isDrew = true ∧
    (edC2.draw ()).1.raw.WriteFn = some RawWriteFn.write_wrapper :=
  ⟨rfl, rfl, rfl⟩

/-- Claim C2 (amended): every successful generic draw installs the write
trampoline into the raw WriteFn slot, regardless of the read-only flag;
read-only only relaxes the write-callback precondition. -/
theorem claim_C2_amended_write_always_installed {T : Type}
    (ed : MemoryEditor T) (ud : T)
    (h : (ed.draw ud).2.isDrew = true) :
    (ed.draw ud).1.raw.WriteFn = some RawWriteFn.write_wrapper := by
  by_cases h1 : (ed.read_fn.isSome || ed.mem_size == 0) = true
  · by_cases h2 : (ed.write_fn.isSome || ed.raw.ReadOnly || ed.mem_size == 0) = true
    · rw [draw_success ed ud h1 h2]
    · rw [draw_panic_write ed ud h1 (by simpa using h2)] at h
      simp [DrawOutcome.isDrew] at h
  · rw [draw_panic_read ed ud (by simpa using h1)] at h
    simp [DrawOutcome.isDrew] at h

/-- Witness for the amended claim C2, at the read-only configuration edC2. -/
theorem claim_C2_witness :
    (edC2.draw ()).1.raw.WriteFn = some RawWriteFn.write_wrapper :=
  claim_C2_amended_write_always_installed edC2 () rfl

/-- Claim C3: when a read callback is attached and draw reaches the external
widget, the bundle handed to the widget is such that invoking the read
trampoline on it at any offset returns exactly the byte the attached read
callback returns for (user data, offset). -/
theorem claim_C3_read_trampoline_forwards {T : Type}
    (ed : MemoryEditor T) (ud : T) (f : T → Nat → Byte) (off : Nat)
    (hf : ed.read_fn = some f)
    (h : (ed.draw ud).2.isDrew = true) :
    ∃ bundle, (ed.draw ud).2.payload = some bundle ∧
      read_wrapper bundle off = some (f ud off) := by
  by_cases h1 : (ed.read_fn.isSome || ed.mem_size == 0) = true
  · by_cases h2 : (ed.write_fn.isSome || ed.raw.ReadOnly || ed.mem_size == 0) = true
    · rw [draw_success ed ud h1 h2]
      refine ⟨{ read_fn := ed.read_fn, write_fn := ed.write_fn,
                highlight_fn := ed.highlight_fn, user_data := ud }, ?_, ?_⟩
      · simp [DrawOutcome.payload, draw_raw_memDataOf]
      · simp [read_wrapper, hf]
    · rw [draw_panic_write ed ud h1 (by simpa using h2)] at h
      simp [DrawOutcome.isDrew] at h
  · rw [draw_panic_read ed ud (by simpa using h1)] at h
    simp [DrawOutcome.isDrew] at h

/-- Witness for claim C3: the spec scenario (byte-size 16, read callback
returning the offset as a byte, read-only) at offset 5 yields 5. -/
theorem claim_C3_witness :
    ∃ bundle, (edC3.draw ()).2.payload = some bundle ∧
      read_wrapper bundle 5 = some 5 :=
  claim_C3_read_trampoline_forwards edC3 () (fun _ off => off % 256) 5 rfl rfl

/-- Claim C4: after a successful generic draw, the raw HighlightFn slot
holds the highlight trampoline iff a highlight callback was attached before
the call, and is cleared to none when no highlight callback is attached. -/
theorem claim_C4_highlight_iff {T : Type} (ed : MemoryEditor T) (ud : T)
    (h : (ed.draw ud).2.isDrew = true) :
    ((ed.draw ud).1.raw.HighlightFn = some RawHighlightFn.highlight_wrapper ↔
      ed.highlight_fn.isSome = true) ∧
    (ed.highlight_fn = none → (ed.draw ud).1.raw.HighlightFn = none) := by
  by_cases h1 : (ed.read_fn.isSome || ed.mem_size == 0) = true
  · by_cases h2 : (ed.write_fn.isSome || ed.raw.ReadOnly || ed.mem_size == 0) = true
    · rw [draw_success ed ud h1 h2]
      constructor
      · by_cases hh : ed.highlight_fn.isSome = true <;> simp [hh]
      · intro hn
        simp [hn]
    · rw [draw_panic_write ed ud h1 (by simpa using h2)] at h
      simp [DrawOutcome.isDrew] at h
  · rw [draw_panic_read ed ud (by simpa using h1)] at h
    simp [DrawOutcome.isDrew] at h

/-- Witness for claim C4, at edC4 (highlight callback attached, mem_size 0). -/
theorem claim_C4_witness :
    ((edC4.draw ()).1.raw.HighlightFn = some RawHighlightFn.highlight_wrapper ↔
      edC4.highlight_fn.isSome = true) ∧
    (edC4.highlight_fn = none → (edC4.draw ()).1.raw.HighlightFn = none) :=
  claim_C4_highlight_iff edC4 () rfl

/-- Claim C5: with mem_size greater than 0 and no read callback, the generic
draw panics on the first assert with the editor untouched (so before any
external call), regardless of every other setting. -/
theorem claim_C5_read_required {T : Type} (ed : MemoryEditor T) (ud : T)
    (hm : 0 < ed.mem_size) (hr : ed.read_fn = none) :
    ed.draw ud = (ed, DrawOutcome.panicked PanicMsg.readFnMustBeSet) := by
  apply draw_panic_read
  have hm' : ed.mem_size ≠ 0 := Nat.pos_iff_ne_zero.mp hm
  simp [hr, hm']

/-- Witness for claim C5, at edC5 (mem_size 1, write callback attached but
no read callback). -/
theorem claim_C5_witness :
    edC5.draw () = (edC5, DrawOutcome.panicked PanicMsg.readFnMustBeSet) :=
  claim_C5_read_required edC5 () (by decide) rfl

/-- Claim C6: with mem_size greater than 0, a read callback attached, and no
write callback, the generic draw panics on the second assert when the
read-only flag is false, and reaches the external widget when the flag is
true. -/
theorem claim_C6_write_gate {T : Type} (ed : MemoryEditor T) (ud : T)
    (hm : 0 < ed.mem_size) (hr : ed.read_fn.isSome = true)
    (hw : ed.write_fn = none) :
    (ed.raw.ReadOnly = false →
      ed.draw ud = (ed, DrawOutcome.panicked PanicMsg.writeFnMustBeSet)) ∧
    (ed.raw.ReadOnly = true → (ed.draw ud).2.isDrew = true) := by
  have hm' : (ed.mem_size == 0) = false := by
    simpa using Nat.pos_iff_ne_zero.mp hm
  constructor
  · intro hro
    exact draw_panic_write ed ud (by simp [hr]) (by simp [hw, hro, hm'])
  · intro hro
    rw [draw_success ed ud (by simp [hr]) (by simp [hro])]
    simp [DrawOutcome.isDrew]

/-- Witness for claim C6: edC6a (writable, no write callback) panics, edC6b
(read-only, no write callback) draws. -/
theorem claim_C6_witness :
    edC6a.draw () = (edC6a, DrawOutcome.panicked PanicMsg.writeFnMustBeSet) ∧
    (edC6b.draw ()).2.isDrew = true :=
  ⟨(claim_C6_write_gate edC6a () (by decide) rfl rfl).1 rfl,
   (claim_C6_write_gate edC6b () (by decide) rfl rfl).2 rfl⟩

/-- Claim C7: with mem_size 0, the generic draw passes both asserts and
makes exactly one external draw invocation, whatever callbacks are
attached. -/
theorem claim_C7_empty_range {T : Type} (ed : MemoryEditor T) (ud : T)
    (hm : ed.mem_size = 0) :
    (ed.draw ud).2.isDrew = true := by
  rw [draw_success ed ud (by simp [hm]) (by simp [hm])]
  simp [DrawOutcome.isDrew]

/-- Witness for claim C7, at edC7 (mem_size 0, only a write callback). -/
theorem claim_C7_witness : (edC7.draw ()).2.isDrew = true :=
  claim_C7_empty_range edC7 () rfl

/-- Claim C8: the &mut [u8] draw_vec panics (with the editor untouched, so
before any external call) when any of the three callbacks is attached,
whatever the buffer is; with none attached it sets mem_size to the buffer
length and reaches the external widget. -/
theorem claim_C8_draw_vec_mut_gate (ed : MemoryEditor (List Byte))
    (data : List Byte) :
    ((ed.read_fn.isSome || ed.write_fn.isSome || ed.highlight_fn.isSome) = true →
      ed.draw_vec_mut data =
        (ed, DrawOutcome.panicked PanicMsg.handlerFnsNotSupported)) ∧
    (ed.read_fn = none → ed.write_fn = none → ed.highlight_fn = none →
      (ed.draw_vec_mut data).1.mem_size = data.length ∧
      (ed.draw_vec_mut data).2.isDrew = true) := by
  constructor
  · intro h
    have hc : (ed.read_fn.isNone && ed.write_fn.isNone &&
        ed.highlight_fn.isNone) = false := by
      cases hr : ed.read_fn <;> cases hw : ed.write_fn <;>
        cases hh : ed.highlight_fn <;> simp_all
    unfold MemoryEditor.draw_vec_mut
    simp [hc]
  · intro hr hw hh
    unfold MemoryEditor.draw_vec_mut
    simp [hr, hw, hh, DrawOutcome.isDrew]

/-- Witness for claim C8: the spec scenario of a 4-byte buffer with an
attached write callback panics; with no callbacks a 2-byte buffer draws and
mem_size becomes 2. -/
theorem claim_C8_witness :
    edC8a.draw_vec_mut [1, 2, 3, 4] =
      (edC8a, DrawOutcome.panicked PanicMsg.handlerFnsNotSupported) ∧
    ((edC8b.draw_vec_mut [1, 2]).1.mem_size = 2 ∧
      (edC8b.draw_vec_mut [1, 2]).2.isDrew = true) :=
  ⟨(claim_C8_draw_vec_mut_gate edC8a [1, 2, 3, 4]).1 rfl,
   (claim_C8_draw_vec_mut_gate edC8b [1, 2]).2 rfl rfl rfl⟩

/-- Claim C9: the &mut [u8] draw_vec has no read-only check: with no
callbacks attached it reaches the external widget and hands it the buffer,
for every configuration, in particular when the read-only flag is true. -/
theorem claim_C9_no_readonly_gate (ed : MemoryEditor (List Byte))
    (data : List Byte)
    (hr : ed.read_fn = none) (hw : ed.write_fn = none)
    (hh : ed.highlight_fn = none) :
    (ed.draw_vec_mut data).2.isDrew = true ∧
    (ed.draw_vec_mut data).2.payload = some data := by
  unfold MemoryEditor.draw_vec_mut
  simp [hr, hw, hh, DrawOutcome.isDrew, DrawOutcome.payload, draw_raw_memDataOf]

/-- Witness for claim C9, at the read-only-flagged editor edC9. -/
theorem claim_C9_witness :
    edC9.raw.ReadOnly = true ∧
    ((edC9.draw_vec_mut [7]).2.isDrew = true ∧
      (edC9.draw_vec_mut [7]).2.payload = some [7]) :=
  ⟨rfl, claim_C9_no_readonly_gate edC9 [7] rfl rfl rfl⟩

/-- Claim C10: whenever the generic draw panics on a precondition, the
editor record it leaves behind is exactly the one it was given: trampoline
slots, mem_size, base_addr, window name and the three callback slots are
all unchanged. -/
theorem claim_C10_panic_preserves_state {T : Type} (ed : MemoryEditor T)
    (ud : T) (h : (ed.draw ud).2.isDrew = false) :
    (ed.draw ud).1 = ed := by
  by_cases h1 : (ed.read_fn.isSome || ed.mem_size == 0) = true
  · by_cases h2 : (ed.write_fn.isSome || ed.raw.ReadOnly || ed.mem_size == 0) = true
    · rw [draw_success ed ud h1 h2] at h
      simp [DrawOutcome.isDrew] at h
    · rw [draw_panic_write ed ud h1 (by simpa using h2)]
  · rw [draw_panic_read ed ud (by simpa using h1)]

/-- Witness for claim C10, at edC10 (mem_size 1, base_addr 7, no read
callback: the first assert fires and the editor is returned unchanged). -/
theorem claim_C10_witness : (edC10.draw ()).1 = edC10 :=
  claim_C10_panic_preserves_state edC10 () rfl
